import Mathlib

/-!
Verification of the ebupot extraction core (format signature detection,
three line-oriented extraction state machines, dispatcher, date helpers).
The TypeScript source is shallowly embedded over `List Char`, with
JavaScript string semantics made explicit (clamping `substring`/`slice`,
`indexOf` returning -1, `split` on newlines, out-of-range indexing joined
as the empty string).
-/

namespace Ebupot

/-- JavaScript whitespace characters (the set used by `\s`, `trim`). -/
def isJsWs (c : Char) : Bool :=
  c = ' ' || c = '\t' || c = '\n' || c = '\r' || c = '\x0b' || c = '\x0c' ||
  c = ' ' || c = ' ' ||
  (' ' ≤ c && c ≤ ' ') ||
  c = ' ' || c = ' ' || c = ' ' || c = ' ' ||
  c = '　' || c = '﻿'

/-- Remove every JS whitespace character (JS `replace(/\s/g, '')`). -/
def stripWs (s : List Char) : List Char := s.filter (fun c => !isJsWs c)

/-- JS `String.prototype.trim`. -/
def jsTrim (s : List Char) : List Char :=
  ((s.dropWhile isJsWs).reverse.dropWhile isJsWs).reverse

/-- `needle` begins `hay` (JS `startsWith`). -/
def prefixOfL : List Char → List Char → Bool
  | [], _ => true
  | _ :: _, [] => false
  | a :: as, b :: bs => a = b && prefixOfL as bs

/-- Substring containment, defined directly by scanning. -/
def containsSub : List Char → List Char → Bool
  | [], needle => prefixOfL needle []
  | c :: t, needle => prefixOfL needle (c :: t) || containsSub t needle

/-- First index at which `needle` occurs in the haystack, if any. -/
def indexOfAux (needle : List Char) : List Char → Option Nat
  | [] => if prefixOfL needle [] then some 0 else none
  | c :: t =>
    if prefixOfL needle (c :: t) then some 0
    else (indexOfAux needle t).map (· + 1)

/-- JS `String.prototype.indexOf`: position of first occurrence or -1. -/
def jsIndexOf (hay needle : List Char) : Int :=
  match indexOfAux needle hay with
  | some n => (n : Int)
  | none => -1

/-- Clamp an index into `[0, len]` (JS `substring` argument handling). -/
def clampIdx (len : Nat) (i : Int) : Nat :=
  (min (max i 0) (len : Int)).toNat

/-- JS `String.prototype.substring`: clamps both arguments and swaps them
when given out of order. -/
def jsSubstring (s : List Char) (a b : Int) : List Char :=
  let a' := clampIdx s.length a
  let b' := clampIdx s.length b
  (s.drop (min a' b')).take (max a' b' - min a' b')

/-- JS `substring` with only a start argument. -/
def jsSubstringFrom (s : List Char) (a : Int) : List Char :=
  jsSubstring s a (s.length : Int)

/-- Resolve a JS `slice` index: negative counts from the end, clamped. -/
def sliceIdx (len : Nat) (i : Int) : Nat :=
  if i < 0 then ((len : Int) + i).toNat.min len else (min i (len : Int)).toNat

/-- JS `String.prototype.slice`: negative indices count from the end;
empty when the resolved end does not exceed the resolved start. -/
def jsSlice (s : List Char) (a b : Int) : List Char :=
  let a' := sliceIdx s.length a
  let b' := sliceIdx s.length b
  (s.drop a').take (b' - a')

/-- JS `slice` with only a start argument. -/
def jsSliceFrom (s : List Char) (a : Int) : List Char :=
  jsSlice s a (s.length : Int)

/-- JS `split(/\n/)`: the empty string yields one empty field. -/
def splitNl : List Char → List (List Char)
  | [] => [[]]
  | c :: t =>
    if c = '\n' then [] :: splitNl t
    else
      match splitNl t with
      | [] => [[c]]
      | h :: r => (c :: h) :: r

/-- One character of a JS array `join('')`: an out-of-range (undefined)
entry contributes the empty string. -/
def optStr : Option Char → List Char
  | none => []
  | some c => [c]

/-- The extracted record (TS type `EbupotExtractedData`). -/
@[ext]
structure EbupotExtractedData where
  h1 : List Char
  b1 : List Char
  b2 : List Char
  b7 : List (List Char)
  b8 : List (List Char)
  c1 : List Char
  c3 : List Char
deriving DecidableEq

/-- The record with every field at its default empty value. -/
def emptyData : EbupotExtractedData :=
  { h1 := [], b1 := [], b2 := [], b7 := [], b8 := [], c1 := [], c3 := [] }

/-- `ddmmyyyyToIso`: slice year `[4:8]`, month `[2:4]`, day `[0:2]` and
join with dashes; no validation. -/
def ddmmyyyyToIso (s : List Char) : List Char :=
  jsSubstring s 4 8 ++ ['-'] ++ jsSubstring s 2 4 ++ ['-'] ++ jsSubstring s 0 2

/-- The spec's own description of `DateNormalizer`: character range `[4:8]`
is the year, `[2:4]` the month, `[0:2]` the day, joined with dashes.
Stated independently of the source's `substring` helper, to be compared
with `ddmmyyyyToIso`. -/
def dateNormSpec (s : List Char) : List Char :=
  (s.drop 4).take 4 ++ ['-'] ++ (s.drop 2).take 2 ++ ['-'] ++ s.take 2

/-- The scan loop of `splitDocDate`: walk leftward from index `i`
(`i = 0` means the JS loop guard `i > 0` failed), collecting non-space
characters until eight are held; returns the stop index and the
collected characters (most recent first). -/
def sddLoop (line : List Char) : Nat → List Char → Nat × List Char
  | 0, date => (0, date)
  | j + 1, date =>
    let i := j + 1
    let date' := if line.getD i ' ' ≠ ' ' then date ++ [line.getD i ' '] else date
    if 8 ≤ date'.length then (i, date')
    else sddLoop line j date'

/-- `splitDocDate`: split a line into a document-name prefix and the ISO
form of its trailing eight non-space characters. -/
def splitDocDate (line : List Char) : List Char × List Char :=
  let r := sddLoop line (line.length - 1) []
  (jsSubstring line 0 (r.1 : Int), ddmmyyyyToIso r.2.reverse)

/-- `getEbupotFormatedSignature`: classify the text as layout A, B, C,
empty (Z) or unrecognized (U), first match wins. -/
def getEbupotFormatedSignature (data : List Char) : List Char :=
  if jsIndexOf data "FORMULIR BPBS\nH.1\nH.2\nH.3".data > -1 then "A".data
  else if jsIndexOf data "FORMULIR BPBS\nBukti Pemotongan".data > -1 then "B".data
  else if jsIndexOf data "FORMULIR BPBS\nH.1\nNOMOR".data > -1 then "C".data
  else if (jsTrim data).length = 0 then "Z".data
  else "U".data

/-- Generic driver: feed lines to a step function until the lines run out
or the step reports `false` (the JS `break`). -/
def runFSM {σ : Type} (step : σ → List Char → σ × Bool) : σ → List (List Char) → σ
  | st, [] => st
  | st, l :: ls =>
    match step st l with
    | (st', true) => runFSM step st' ls
    | (st', false) => st'

/-- Loop state of Extractor A: record under construction, the
concatenation buffer, and the numeric state counter. -/
structure AState where
  ret : EbupotExtractedData
  buffer : List Char
  state : Nat
deriving DecidableEq

/-- Initial loop state of Extractor A. -/
def initA : AState := { ret := emptyData, buffer := [], state := 0 }

/-- One iteration of Extractor A's loop body (states 0–14). -/
def stepA (st : AState) (line : List Char) : AState × Bool :=
  if st.state = 0 then ({ st with state := 1 }, true)
  else if st.state = 1 then
    ({ st with ret := { st.ret with b7 := st.ret.b7 ++ [line] }, state := 2 }, true)
  else if st.state = 2 then
    (if line = "yyyy".data then { st with state := 3 } else st, true)
  else if st.state = 3 then
    if line = [] then
      ({ st with ret := { st.ret with b7 := st.ret.b7.dropLast }, state := 4 }, true)
    else
      let docName := jsSlice line 0 (-8)
      let docDate := jsSliceFrom line (-8)
      ({ st with
          ret := { st.ret with b7 := st.ret.b7 ++ [docName, ddmmyyyyToIso docDate] },
          state := 4 }, true)
  else if st.state = 4 then
    (if line = "Tanggal".data then { st with state := 5 } else st, true)
  else if st.state = 5 then
    if line = "B.9".data then
      if st.buffer = [] then ({ st with state := 6 }, true)
      else
        let docName := jsSlice st.buffer 0 (-8)
        let docDate := jsSliceFrom st.buffer (-8)
        ({ st with
            ret := { st.ret with b8 := st.ret.b8 ++ [docName, ddmmyyyyToIso docDate] },
            buffer := [], state := 6 }, true)
    else ({ st with buffer := st.buffer ++ line }, true)
  else if st.state = 6 then
    (if line = "C.1".data then { st with state := 7 } else st, true)
  else if st.state = 7 then
    (if line = ":NPWP".data then { st with state := 8 } else st, true)
  else if st.state = 8 then
    if line = "Nama Wajib PajakC.2:".data then
      ({ st with ret := { st.ret with c1 := st.buffer }, buffer := [], state := 9 }, true)
    else ({ st with buffer := st.buffer ++ line }, true)
  else if st.state = 9 then
    (if line = "mmyyyy".data then { st with state := 10 } else st, true)
  else if st.state = 10 then
    if line = "C.4".data then
      ({ st with
          ret := { st.ret with c3 := ddmmyyyyToIso st.buffer },
          buffer := [], state := 11 }, true)
    else ({ st with buffer := st.buffer ++ line }, true)
  else if st.state = 11 then
    (if jsIndexOf line "Bukti Pemotongan ini.".data > -1 then { st with state := 12 }
     else st, true)
  else if st.state = 12 then
    ({ st with ret := { st.ret with h1 := line }, state := 13 }, true)
  else if st.state = 13 then
    (if 4 < line.length then { st with ret := { st.ret with b1 := line }, state := 14 }
     else st, true)
  else if st.state = 14 then
    ({ st with ret := { st.ret with b2 := line } }, false)
  else (st, true)

/-- `extractAFormatedEbupot`: run Extractor A on the text from the first
occurrence of its entry anchor. -/
def extractAFormatedEbupot (data : List Char) : EbupotExtractedData :=
  (runFSM stepA initA
    (splitNl (jsSubstringFrom data (jsIndexOf data "Dokumen Referensi".data)))).ret

/-- The fixed taxpayer-ID descrambling permutation of Extractor B. -/
def npwpPerm : List Nat := [7, 11, 14, 9, 3, 5, 12, 13, 1, 6, 2, 10, 0, 8, 4]

/-- Loop state of Extractor B: record under construction and the numeric
state counter. -/
structure BState where
  ret : EbupotExtractedData
  state : Nat
deriving DecidableEq

/-- Initial loop state of Extractor B. -/
def initB : BState := { ret := emptyData, state := 0 }

/-- One iteration of Extractor B's loop body (states 0–12). -/
def stepB (st : BState) (line : List Char) : BState × Bool :=
  if st.state < 2 then ({ st with state := st.state + 1 }, true)
  else if st.state = 2 then
    ({ st with ret := { st.ret with h1 := line }, state := 3 }, true)
  else if st.state = 3 then
    (if line = "B.1B.2B.3B.4B.5B.6".data then { st with state := 4 } else st, true)
  else if st.state = 4 then
    let b1 := if jsSlice line (-11) (-10) = [','] then jsSliceFrom line (-7)
              else jsSliceFrom line (-6)
    let p := jsIndexOf line ['-']
    ({ st with
        ret := { st.ret with b1 := b1, b2 := jsSubstring line (p - 2) (p + 7) },
        state := 5 }, true)
  else if st.state = 5 then
    (if line = "ddmmyyyy".data then { st with state := 6 } else st, true)
  else if st.state = 6 then
    if line = "B.8".data then
      ({ st with ret := { st.ret with b7 := st.ret.b7 ++ [[], [], []] }, state := 8 }, true)
    else
      ({ st with ret := { st.ret with b7 := st.ret.b7 ++ [line] }, state := 7 }, true)
  else if st.state = 7 then
    let randDate := jsSliceFrom line (-8)
    let date := optStr (randDate.get? 1) ++ optStr (randDate.get? 2) ++
      optStr (randDate.get? 7) ++ optStr (randDate.get? 5) ++ ['-'] ++
      optStr (randDate.get? 3) ++ optStr (randDate.get? 4) ++ ['-'] ++
      optStr (randDate.get? 0) ++ optStr (randDate.get? 6)
    ({ st with
        ret := { st.ret with b7 := st.ret.b7 ++ [jsSlice line 0 (-8), date] },
        state := 8 }, true)
  else if st.state = 8 then ({ st with state := 9 }, true)
  else if st.state = 9 then
    (if prefixOfL "C. IDENTITAS PEMOTONG".data line then { st with state := 10 }
     else st, true)
  else if st.state = 10 then
    ({ st with
        ret := { st.ret with c1 := (npwpPerm.map (fun k => optStr (line.get? k))).flatten },
        state := 11 }, true)
  else if st.state = 11 then
    (if line = "C.2Nama Wajib Pajak:".data then { st with state := 12 } else st, true)
  else if st.state = 12 then
    let date := optStr (line.get? 1) ++ optStr (line.get? 7) ++ optStr (line.get? 2) ++
      optStr (line.get? 4) ++ ['-'] ++ optStr (line.get? 0) ++ optStr (line.get? 6) ++
      ['-'] ++ optStr (line.get? 5) ++ optStr (line.get? 3)
    ({ st with ret := { st.ret with c3 := date } }, false)
  else (st, true)

/-- `extractBFormatedEbupot`: run Extractor B on the text from the first
occurrence of its entry anchor. -/
def extractBFormatedEbupot (data : List Char) : EbupotExtractedData :=
  (runFSM stepB initB
    (splitNl (jsSubstringFrom data (jsIndexOf data "PPh Tidak Final".data)))).ret

/-- Loop state of Extractor C: record under construction, the buffered
lines, the supporting-document flag, and the numeric state counter. -/
structure CState where
  ret : EbupotExtractedData
  bufferLines : List (List Char)
  b7flag : Bool
  state : Nat
deriving DecidableEq

/-- Initial loop state of Extractor C. -/
def initC : CState := { ret := emptyData, bufferLines := [], b7flag := false, state := 0 }

/-- One iteration of Extractor C's loop body (states 0–12). -/
def stepC (st : CState) (line : List Char) : CState × Bool :=
  if st.state = 0 then ({ st with state := 1 }, true)
  else if st.state = 1 then
    ({ st with ret := { st.ret with h1 := stripWs line }, state := 2 }, true)
  else if st.state < 6 then ({ st with state := st.state + 1 }, true)
  else if st.state = 6 then
    let p := jsIndexOf line ['-']
    ({ st with
        ret := { st.ret with
                  b1 := jsSubstring line 0 (p + 5),
                  b2 := jsSubstring line (p + 5) (p + 14) },
        state := 7 }, true)
  else if st.state = 7 then ({ st with state := 8 }, true)
  else if st.state = 8 then
    ({ st with bufferLines := st.bufferLines ++ [line], state := 9 }, true)
  else if st.state = 9 then
    let npwp := stripWs line
    if (!npwp.isEmpty && npwp.all Char.isDigit) && npwp.length == 15 then
      ({ st with ret := { st.ret with c1 := npwp }, state := 11 }, true)
    else
      ({ st with bufferLines := st.bufferLines ++ [line], b7flag := true, state := 10 }, true)
  else if st.state = 10 then
    ({ st with ret := { st.ret with c1 := stripWs line }, state := 11 }, true)
  else if st.state = 11 then
    if st.b7flag then
      let pr := splitDocDate (st.bufferLines.getD 1 [])
      ({ st with
          ret := { st.ret with b7 := st.ret.b7 ++ [st.bufferLines.getD 0 [], pr.1, pr.2] },
          state := 12 }, true)
    else
      let pr := splitDocDate (st.bufferLines.getD 0 [])
      ({ st with ret := { st.ret with b8 := st.ret.b8 ++ [pr.1, pr.2] }, state := 12 }, true)
  else if st.state = 12 then
    ({ st with ret := { st.ret with c3 := ddmmyyyyToIso (stripWs line) } }, false)
  else (st, true)

/-- `extractCFormatedEbupot`: run Extractor C on the text from the first
occurrence of its entry anchor. -/
def extractCFormatedEbupot (data : List Char) : EbupotExtractedData :=
  (runFSM stepC initC
    (splitNl (jsSubstringFrom data (jsIndexOf data "Bukti Pemotongan ini.".data)))).ret

/-- Result type of the dispatcher: a typed record for A/B/C, or the
untyped empty object `\x7b\x7d` of the default branch. -/
inductive ExtractResult where
  | record : EbupotExtractedData → ExtractResult
  | emptyObj : ExtractResult
deriving DecidableEq

/-- `extractEbupot`: dispatch on the detected format tag. -/
def extractEbupot (data format : List Char) : ExtractResult :=
  if format = "A".data then .record (extractAFormatedEbupot data)
  else if format = "B".data then .record (extractBFormatedEbupot data)
  else if format = "C".data then .record (extractCFormatedEbupot data)
  else .emptyObj

/-- A concrete Extractor A input whose anchors all match but whose
captured taxpayer-ID buffer and certificate-number line are empty. -/
def cexA : List Char :=
  ("Dokumen Referensi\nX\nyyyy\n\nTanggal\nB.9\nC.1\n:NPWP\n" ++
   "Nama Wajib PajakC.2:\nmmyyyy\nC.4\nBukti Pemotongan ini.\n\nabcdef\nZ").data

theorem indexOfAux_eq_none_iff (needle : List Char) :
    ∀ hay, indexOfAux needle hay = none ↔ containsSub hay needle = false := by
  intro hay
  induction hay with
  | nil =>
    cases h : prefixOfL needle [] <;> simp [indexOfAux, containsSub, h]
  | cons c t ih =>
    cases h : prefixOfL needle (c :: t) <;>
      simp [indexOfAux, containsSub, h, ih]

theorem jsIndexOf_eq_neg_one_iff (hay needle : List Char) :
    jsIndexOf hay needle = -1 ↔ containsSub hay needle = false := by
  unfold jsIndexOf
  cases h : indexOfAux needle hay with
  | none =>
    simpa using (indexOfAux_eq_none_iff needle hay).mp h
  | some n =>
    have h1 : containsSub hay needle = true := by
      cases hcs : containsSub hay needle
      · exact absurd ((indexOfAux_eq_none_iff needle hay).mpr hcs) (by simp [h])
      · rfl
    simp [h1]

theorem jsIndexOf_gt_neg_one_iff (hay needle : List Char) :
    jsIndexOf hay needle > -1 ↔ containsSub hay needle = true := by
  cases h : containsSub hay needle
  · have := (jsIndexOf_eq_neg_one_iff hay needle).mpr h
    simp [this]
  · simp only [h, iff_true]
    unfold jsIndexOf
    cases hi : indexOfAux needle hay with
    | none => exact absurd ((indexOfAux_eq_none_iff needle hay).mp hi) (by simp [h])
    | some n => simp; omega

theorem clampIdx_of_nonneg (len : Nat) (i : Int) (_h : 0 ≤ i) :
    clampIdx len i = min i.toNat len := by
  unfold clampIdx
  omega

theorem jsSubstring_of_nonneg_le (s : List Char) (a b : Int) (h0 : 0 ≤ a) (hab : a ≤ b) :
    jsSubstring s a b = (s.drop a.toNat).take (b.toNat - a.toNat) := by
  unfold jsSubstring
  rw [clampIdx_of_nonneg _ _ h0, clampIdx_of_nonneg _ _ (le_trans h0 hab)]
  have h1 : min (min a.toNat s.length) (min b.toNat s.length) = min a.toNat s.length := by
    omega
  have h2 : max (min a.toNat s.length) (min b.toNat s.length) = min b.toNat s.length := by
    omega
  simp only [h1, h2]
  by_cases hA : a.toNat ≤ s.length
  · rw [min_eq_left hA]
    by_cases hB : b.toNat ≤ s.length
    · rw [min_eq_left hB]
    · rw [min_eq_right (by omega)]
      rw [List.take_of_length_le (by simp only [List.length_drop]; omega),
          List.take_of_length_le (by simp only [List.length_drop]; omega)]
  · have hA' : s.length ≤ a.toNat := by omega
    rw [min_eq_right hA']
    simp [List.drop_eq_nil_of_le hA']

theorem jsSubstringFrom_neg_one (s : List Char) : jsSubstringFrom s (-1) = s := by
  unfold jsSubstringFrom
  have h1 : clampIdx s.length (-1) = 0 := by unfold clampIdx; omega
  have h2 : clampIdx s.length (s.length : Int) = s.length := by unfold clampIdx; omega
  simp [jsSubstring, h1, h2, List.take_length]

theorem indexOfAux_some_lt (needle : List Char) (hne : needle ≠ []) :
    ∀ (hay : List Char) (n : Nat), indexOfAux needle hay = some n → n < hay.length := by
  intro hay
  induction hay with
  | nil =>
    intro n h
    obtain ⟨c, cs, rfl⟩ := List.exists_cons_of_ne_nil hne
    simp [indexOfAux, prefixOfL] at h
  | cons c t ih =>
    intro n h
    by_cases hp : prefixOfL needle (c :: t) = true
    · simp [indexOfAux, hp] at h
      subst h
      simp
    · simp [indexOfAux, hp] at h
      obtain ⟨m, hm, rfl⟩ := h
      have := ih m hm
      simp
      omega

theorem jsIndexOf_ge_neg_one (hay needle : List Char) : -1 ≤ jsIndexOf hay needle := by
  unfold jsIndexOf
  cases h : indexOfAux needle hay <;> simp <;> omega

theorem jsSubstring_ne_nil_of_lt (s : List Char) (a b : Int)
    (h : clampIdx s.length a < clampIdx s.length b) : jsSubstring s a b ≠ [] := by
  unfold jsSubstring
  have hb : clampIdx s.length b ≤ s.length := by
    unfold clampIdx
    omega
  apply List.ne_nil_of_length_pos
  rw [List.length_take, List.length_drop]
  omega

theorem sliceIdx_le_len (len : Nat) (i : Int) : sliceIdx len i ≤ len := by
  unfold sliceIdx
  split
  · exact Nat.min_le_right _ _
  · omega

theorem jsSlice_ne_nil_of_lt (s : List Char) (a b : Int)
    (h : sliceIdx s.length a < sliceIdx s.length b) : jsSlice s a b ≠ [] := by
  unfold jsSlice
  have hb := sliceIdx_le_len s.length b
  apply List.ne_nil_of_length_pos
  rw [List.length_take, List.length_drop]
  omega

theorem optStr_get?_of_lt (line : List Char) (k : Nat) (h : k < line.length) :
    optStr (line.get? k) = [line.getD k ' '] := by
  cases hg : line.get? k with
  | none => exact absurd (List.get?_eq_none.mp hg) (by omega)
  | some c =>
    simp [optStr, List.getD_eq_getElem?_getD, ← List.get?_eq_getElem?, hg]

theorem flatten_optStr_map (line : List Char) :
    ∀ ks : List Nat, (∀ k ∈ ks, k < line.length) →
      (ks.map (fun k => optStr (line.get? k))).flatten
        = ks.map (fun k => line.getD k ' ') := by
  intro ks
  induction ks with
  | nil => intro _; simp
  | cons k t ih =>
    intro h
    simp only [List.map_cons, List.flatten_cons,
      optStr_get?_of_lt line k (h k (by simp)), ih (fun x hx => h x (by simp [hx]))]
    rfl

theorem getD_map_of_lt {α β : Type} (f : α → β) (d : α) (d' : β) :
    ∀ (l : List α) (k : Nat), k < l.length → (l.map f).getD k d' = f (l.getD k d) := by
  intro l
  induction l with
  | nil => intro k h; simp at h
  | cons a t ih =>
    intro k h
    cases k with
    | zero => simp
    | succ n => simpa using ih n (by simpa using h)

theorem runFSM_cons_of_true {σ : Type} (step : σ → List Char → σ × Bool) (st : σ)
    (l : List Char) (ls : List (List Char)) (h : (step st l).2 = true) :
    runFSM step st (l :: ls) = runFSM step (step st l).1 ls := by
  rcases hs : step st l with ⟨st', b⟩
  rw [hs] at h
  subst h
  simp [runFSM, hs]

theorem ddmmyyyyToIso_eq_spec (s : List Char) : ddmmyyyyToIso s = dateNormSpec s := by
  unfold ddmmyyyyToIso dateNormSpec
  rw [jsSubstring_of_nonneg_le s 4 8 (by norm_num) (by norm_num),
      jsSubstring_of_nonneg_le s 2 4 (by norm_num) (by norm_num),
      jsSubstring_of_nonneg_le s 0 2 (by norm_num) (by norm_num)]
  rfl

theorem ddmmyyyyToIso_length_le (s : List Char) : (ddmmyyyyToIso s).length ≤ 10 := by
  rw [ddmmyyyyToIso_eq_spec]
  simp [dateNormSpec]
  omega

theorem ddmmyyyyToIso_ne_nil (s : List Char) : ddmmyyyyToIso s ≠ [] := by
  rw [ddmmyyyyToIso_eq_spec]
  simp [dateNormSpec]

theorem splitDocDate_snd_ne_nil (line : List Char) : (splitDocDate line).2 ≠ [] := by
  simp only [splitDocDate]
  exact ddmmyyyyToIso_ne_nil _

/-- C7: `ddmmyyyyToIso` maps any string to the concatenation of its
character ranges `[4:8]`, `[2:4]`, `[0:2]` joined with dashes, with no
validation; in particular "05082023" becomes "2023-08-05". -/
theorem ddmmyyyyToIso_spec :
    (∀ s, ddmmyyyyToIso s = dateNormSpec s) ∧
    ddmmyyyyToIso "05082023".data = "2023-08-05".data :=
  ⟨ddmmyyyyToIso_eq_spec, by decide⟩

/-- C8: `splitDocDate` on "INVOICE LABEL   05082023" yields the document
label and ISO date; on every line (including the empty line) it is a
total bounded scan whose document-name component is a prefix-slice of the
line and whose date component has at most 10 characters. -/
theorem splitDocDate_spec :
    splitDocDate "INVOICE LABEL   05082023".data
      = ("INVOICE LABEL   ".data, "2023-08-05".data) ∧
    splitDocDate [] = ([], "--".data) ∧
    (∀ line, (splitDocDate line).1.length ≤ line.length ∧
      (splitDocDate line).2.length ≤ 10 ∧
      ∃ k, (splitDocDate line).1 = line.take k) := by
  refine ⟨by decide, by decide, ?_⟩
  intro line
  have h1 : (splitDocDate line).1
      = line.take ((sddLoop line (line.length - 1) []).1 : Nat) := by
    simp only [splitDocDate]
    rw [jsSubstring_of_nonneg_le line 0 ((sddLoop line (line.length - 1) []).1 : Int)
      (by norm_num) (Int.natCast_nonneg _)]
    simp
  refine ⟨?_, ?_, ⟨_, h1⟩⟩
  · rw [h1]
    simp
  · simp only [splitDocDate]
    exact ddmmyyyyToIso_length_le _

/-- C6: the dispatcher returns the untyped empty object for every format
tag other than "A", "B", "C" (in particular for "U" and "Z"), and cannot
fail since it is a total function. -/
theorem extractEbupot_unknown_format (data format : List Char)
    (hA : format ≠ "A".data) (hB : format ≠ "B".data) (hC : format ≠ "C".data) :
    extractEbupot data format = ExtractResult.emptyObj := by
  simp [extractEbupot, hA, hB, hC]

theorem extractEbupot_unknown_format_wit :
    ("U".data ≠ "A".data ∧ "U".data ≠ "B".data ∧ "U".data ≠ "C".data ∧
      extractEbupot "anyText".data "U".data = ExtractResult.emptyObj) ∧
    extractEbupot "anyText".data "Z".data = ExtractResult.emptyObj :=
  ⟨⟨by decide, by decide, by decide,
    extractEbupot_unknown_format "anyText".data "U".data (by decide) (by decide) (by decide)⟩,
    extractEbupot_unknown_format "anyText".data "Z".data (by decide) (by decide) (by decide)⟩

/-- C9: detection and extraction are deterministic and stateless — two
runs on identical text produce the identical format tag and record. -/
theorem extract_deterministic (d1 d2 : List Char) (h : d1 = d2) :
    getEbupotFormatedSignature d1 = getEbupotFormatedSignature d2 ∧
    extractEbupot d1 (getEbupotFormatedSignature d1)
      = extractEbupot d2 (getEbupotFormatedSignature d2) := by
  subst h
  exact ⟨rfl, rfl⟩

theorem extract_deterministic_wit :
    "sample".data = "sample".data ∧
    (getEbupotFormatedSignature "sample".data = getEbupotFormatedSignature "sample".data ∧
      extractEbupot "sample".data (getEbupotFormatedSignature "sample".data)
        = extractEbupot "sample".data (getEbupotFormatedSignature "sample".data)) :=
  ⟨rfl, extract_deterministic "sample".data "sample".data rfl⟩

/-- C10: when an extractor's entry anchor does not occur in the text,
`indexOf` yields -1, `substring(-1)` yields the whole text, and the state
machine therefore runs over every line of the input from its first line. -/
theorem missing_entry_anchor_runs_whole (data : List Char) :
    (containsSub data "Dokumen Referensi".data = false →
      jsIndexOf data "Dokumen Referensi".data = -1 ∧
      extractAFormatedEbupot data = (runFSM stepA initA (splitNl data)).ret) ∧
    (containsSub data "PPh Tidak Final".data = false →
      jsIndexOf data "PPh Tidak Final".data = -1 ∧
      extractBFormatedEbupot data = (runFSM stepB initB (splitNl data)).ret) ∧
    (containsSub data "Bukti Pemotongan ini.".data = false →
      jsIndexOf data "Bukti Pemotongan ini.".data = -1 ∧
      extractCFormatedEbupot data = (runFSM stepC initC (splitNl data)).ret) := by
  refine ⟨fun h => ?_, fun h => ?_, fun h => ?_⟩ <;>
    (first
      | exact ⟨(jsIndexOf_eq_neg_one_iff _ _).mpr h, by
          unfold extractAFormatedEbupot
          rw [(jsIndexOf_eq_neg_one_iff _ _).mpr h, jsSubstringFrom_neg_one]⟩
      | exact ⟨(jsIndexOf_eq_neg_one_iff _ _).mpr h, by
          unfold extractBFormatedEbupot
          rw [(jsIndexOf_eq_neg_one_iff _ _).mpr h, jsSubstringFrom_neg_one]⟩
      | exact ⟨(jsIndexOf_eq_neg_one_iff _ _).mpr h, by
          unfold extractCFormatedEbupot
          rw [(jsIndexOf_eq_neg_one_iff _ _).mpr h, jsSubstringFrom_neg_one]⟩)

theorem missing_entry_anchor_runs_whole_wit :
    (containsSub "hello".data "Dokumen Referensi".data = false ∧
      jsIndexOf "hello".data "Dokumen Referensi".data = -1 ∧
      extractAFormatedEbupot "hello".data = (runFSM stepA initA (splitNl "hello".data)).ret) ∧
    (containsSub "hello".data "PPh Tidak Final".data = false ∧
      jsIndexOf "hello".data "PPh Tidak Final".data = -1 ∧
      extractBFormatedEbupot "hello".data = (runFSM stepB initB (splitNl "hello".data)).ret) ∧
    (containsSub "hello".data "Bukti Pemotongan ini.".data = false ∧
      jsIndexOf "hello".data "Bukti Pemotongan ini.".data = -1 ∧
      extractCFormatedEbupot "hello".data = (runFSM stepC initC (splitNl "hello".data)).ret) :=
  ⟨⟨by decide, (missing_entry_anchor_runs_whole "hello".data).1 (by decide)⟩,
   ⟨by decide, (missing_entry_anchor_runs_whole "hello".data).2.1 (by decide)⟩,
   ⟨by decide, (missing_entry_anchor_runs_whole "hello".data).2.2 (by decide)⟩⟩

/-- C1 counterexample: at state 6 the program tests for "B.8", not
"B.9" — feeding the line "B.9" pushes the raw line to
supportingDocuments and moves to state 7, instead of pushing three empty
strings and jumping to state 8 as the claim asserts. -/
theorem stepB_state6_b9_cex :
    (stepB ⟨emptyData, 6⟩ "B.9".data).1.state = 7 ∧
    (stepB ⟨emptyData, 6⟩ "B.9".data).1.state ≠ 8 ∧
    (stepB ⟨emptyData, 6⟩ "B.9".data).1.ret.b7 = ["B.9".data] ∧
    (stepB ⟨emptyData, 6⟩ "B.9".data).1.ret.b7 ≠ [[], [], []] := by
  decide

/-- C1 (amended): Extractor B in state 6 — on the line "B.8" it pushes
three empty strings to supportingDocuments (b7) and jumps to state 8; on
any other line (a line "B.9" included) it pushes that raw line and moves
to state 7. -/
theorem stepB_state6_spec (st : BState) (line : List Char) (hst : st.state = 6) :
    (line = "B.8".data →
      (stepB st line).1.state = 8 ∧
      (stepB st line).1.ret.b7 = st.ret.b7 ++ [[], [], []]) ∧
    (line ≠ "B.8".data →
      (stepB st line).1.state = 7 ∧
      (stepB st line).1.ret.b7 = st.ret.b7 ++ [line]) := by
  obtain ⟨ret, state⟩ := st
  dsimp only at hst
  subst hst
  constructor
  · intro hl
    simp [stepB, hl]
  · intro hl
    simp [stepB, hl]

theorem stepB_state6_spec_wit :
    ((⟨emptyData, 6⟩ : BState).state = 6 ∧ "B.8".data = "B.8".data ∧
      (stepB ⟨emptyData, 6⟩ "B.8".data).1.state = 8 ∧
      (stepB ⟨emptyData, 6⟩ "B.8".data).1.ret.b7
        = (⟨emptyData, 6⟩ : BState).ret.b7 ++ [[], [], []]) ∧
    ("B.9".data ≠ "B.8".data ∧
      (stepB ⟨emptyData, 6⟩ "B.9".data).1.state = 7 ∧
      (stepB ⟨emptyData, 6⟩ "B.9".data).1.ret.b7
        = (⟨emptyData, 6⟩ : BState).ret.b7 ++ ["B.9".data]) :=
  ⟨⟨rfl, rfl, (stepB_state6_spec ⟨emptyData, 6⟩ "B.8".data rfl).1 rfl⟩,
   ⟨by decide, (stepB_state6_spec ⟨emptyData, 6⟩ "B.9".data rfl).2 (by decide)⟩⟩

/-- C4: Extractor B's state 10 maps a 15-character line to taxpayerId
through the fixed index list `npwpPerm` — output position k reads the
input character at the listed index — and that index list is a
permutation of 0..14 (a bijection on positions: no index reused, none
omitted). -/
theorem npwp_descramble_perm (st : BState) (line : List Char)
    (hst : st.state = 10) (hlen : line.length = 15) :
    (stepB st line).1.ret.c1 = npwpPerm.map (fun k => line.getD k ' ') ∧
    (stepB st line).1.ret.c1.length = 15 ∧
    (∀ k, k < 15 →
      (stepB st line).1.ret.c1.getD k ' ' = line.getD (npwpPerm.getD k 0) ' ') ∧
    npwpPerm.Perm (List.range 15) := by
  obtain ⟨ret, state⟩ := st
  dsimp only at hst
  subst hst
  have h15 : ∀ k ∈ npwpPerm, k < 15 := by decide
  have hmap : (npwpPerm.map (fun k => optStr (line.get? k))).flatten
      = npwpPerm.map (fun k => line.getD k ' ') :=
    flatten_optStr_map line npwpPerm (fun k hk => by rw [hlen]; exact h15 k hk)
  have hc1 : (stepB ⟨ret, 10⟩ line).1.ret.c1 = npwpPerm.map (fun k => line.getD k ' ') := by
    simp [stepB]
    simpa using hmap
  refine ⟨hc1, ?_, ?_, by decide⟩
  · rw [hc1]
    simp [npwpPerm]
  · intro k hk
    rw [hc1, getD_map_of_lt _ 0 ' ' npwpPerm k (by simp [npwpPerm]; omega)]

theorem npwp_descramble_perm_wit :
    ((⟨emptyData, 10⟩ : BState).state = 10 ∧ ("ABCDEFGHIJKLMNO".data).length = 15) ∧
    (stepB ⟨emptyData, 10⟩ "ABCDEFGHIJKLMNO".data).1.ret.c1
      = npwpPerm.map (fun k => ("ABCDEFGHIJKLMNO".data).getD k ' ') :=
  ⟨⟨rfl, by decide⟩,
    (npwp_descramble_perm ⟨emptyData, 10⟩ "ABCDEFGHIJKLMNO".data rfl (by decide)).1⟩

/-- C2: the signature detector is a total deterministic function whose
value is always one of "A", "B", "C", "Z", "U", decided by first match in
the fixed priority order A > B > C > Z > U, even when several anchor
phrases coexist. -/
theorem sig_total_and_priority (data : List Char) :
    (getEbupotFormatedSignature data = "A".data ∨
     getEbupotFormatedSignature data = "B".data ∨
     getEbupotFormatedSignature data = "C".data ∨
     getEbupotFormatedSignature data = "Z".data ∨
     getEbupotFormatedSignature data = "U".data) ∧
    (containsSub data "FORMULIR BPBS\nH.1\nH.2\nH.3".data = true →
      getEbupotFormatedSignature data = "A".data) ∧
    (containsSub data "FORMULIR BPBS\nH.1\nH.2\nH.3".data = false →
      containsSub data "FORMULIR BPBS\nBukti Pemotongan".data = true →
      getEbupotFormatedSignature data = "B".data) ∧
    (containsSub data "FORMULIR BPBS\nH.1\nH.2\nH.3".data = false →
      containsSub data "FORMULIR BPBS\nBukti Pemotongan".data = false →
      containsSub data "FORMULIR BPBS\nH.1\nNOMOR".data = true →
      getEbupotFormatedSignature data = "C".data) ∧
    (containsSub data "FORMULIR BPBS\nH.1\nH.2\nH.3".data = false →
      containsSub data "FORMULIR BPBS\nBukti Pemotongan".data = false →
      containsSub data "FORMULIR BPBS\nH.1\nNOMOR".data = false →
      (jsTrim data).length = 0 →
      getEbupotFormatedSignature data = "Z".data) ∧
    (containsSub data "FORMULIR BPBS\nH.1\nH.2\nH.3".data = false →
      containsSub data "FORMULIR BPBS\nBukti Pemotongan".data = false →
      containsSub data "FORMULIR BPBS\nH.1\nNOMOR".data = false →
      (jsTrim data).length ≠ 0 →
      getEbupotFormatedSignature data = "U".data) := by
  have notPos : ∀ nd : List Char, ¬ jsIndexOf data nd > -1 → containsSub data nd = false := by
    intro nd h
    cases hc : containsSub data nd
    · rfl
    · exact absurd ((jsIndexOf_gt_neg_one_iff data nd).mpr hc) h
  have bfne : (false : Bool) ≠ true := Bool.false_ne_true
  unfold getEbupotFormatedSignature
  by_cases hA : jsIndexOf data "FORMULIR BPBS\nH.1\nH.2\nH.3".data > -1
  · rw [if_pos hA]
    have hA' := (jsIndexOf_gt_neg_one_iff data _).mp hA
    refine ⟨Or.inl rfl, fun _ => rfl, ?_, ?_, ?_, ?_⟩ <;>
      (intro hf; intros; exact absurd (hf ▸ hA') bfne)
  · have hA' := notPos _ hA
    rw [if_neg hA]
    by_cases hB : jsIndexOf data "FORMULIR BPBS\nBukti Pemotongan".data > -1
    · rw [if_pos hB]
      have hB' := (jsIndexOf_gt_neg_one_iff data _).mp hB
      refine ⟨Or.inr (Or.inl rfl), ?_, fun _ _ => rfl, ?_, ?_, ?_⟩
      · intro ht
        exact absurd (hA' ▸ ht) bfne
      all_goals (intro _ hf; intros; exact absurd (hf ▸ hB') bfne)
    · have hB' := notPos _ hB
      rw [if_neg hB]
      by_cases hC : jsIndexOf data "FORMULIR BPBS\nH.1\nNOMOR".data > -1
      · rw [if_pos hC]
        have hC' := (jsIndexOf_gt_neg_one_iff data _).mp hC
        refine ⟨Or.inr (Or.inr (Or.inl rfl)), ?_, ?_, fun _ _ _ => rfl, ?_, ?_⟩
        · intro ht
          exact absurd (hA' ▸ ht) bfne
        · intro _ ht
          exact absurd (hB' ▸ ht) bfne
        all_goals (intro _ _ hf; intros; exact absurd (hf ▸ hC') bfne)
      · have hC' := notPos _ hC
        rw [if_neg hC]
        by_cases hZ : (jsTrim data).length = 0
        · rw [if_pos hZ]
          refine ⟨Or.inr (Or.inr (Or.inr (Or.inl rfl))), ?_, ?_, ?_,
            fun _ _ _ _ => rfl, ?_⟩
          · intro ht
            exact absurd (hA' ▸ ht) bfne
          · intro _ ht
            exact absurd (hB' ▸ ht) bfne
          · intro _ _ ht
            exact absurd (hC' ▸ ht) bfne
          · intro _ _ _ hne
            exact absurd hZ hne
        · rw [if_neg hZ]
          refine ⟨Or.inr (Or.inr (Or.inr (Or.inr rfl))), ?_, ?_, ?_, ?_,
            fun _ _ _ _ => rfl⟩
          · intro ht
            exact absurd (hA' ▸ ht) bfne
          · intro _ ht
            exact absurd (hB' ▸ ht) bfne
          · intro _ _ ht
            exact absurd (hC' ▸ ht) bfne
          · intro _ _ _ hz
            exact absurd hz hZ

theorem sig_total_and_priority_wit :
    getEbupotFormatedSignature "FORMULIR BPBS\nH.1\nH.2\nH.3".data = "A".data ∧
    getEbupotFormatedSignature "FORMULIR BPBS\nBukti Pemotongan".data = "B".data ∧
    getEbupotFormatedSignature "FORMULIR BPBS\nH.1\nNOMOR".data = "C".data ∧
    getEbupotFormatedSignature "  ".data = "Z".data ∧
    getEbupotFormatedSignature "hello".data = "U".data :=
  ⟨(sig_total_and_priority "FORMULIR BPBS\nH.1\nH.2\nH.3".data).2.1 (by decide),
   (sig_total_and_priority "FORMULIR BPBS\nBukti Pemotongan".data).2.2.1
     (by decide) (by decide),
   (sig_total_and_priority "FORMULIR BPBS\nH.1\nNOMOR".data).2.2.2.1
     (by decide) (by decide) (by decide),
   (sig_total_and_priority "  ".data).2.2.2.2.1
     (by decide) (by decide) (by decide) (by decide),
   (sig_total_and_priority "hello".data).2.2.2.2.2
     (by decide) (by decide) (by decide) (by decide)⟩

set_option maxRecDepth 8000 in
set_option maxHeartbeats 1000000 in
/-- C3 counterexample: on the concrete input `cexA`, Extractor A matches
every anchor (the run terminates in state 14, past both the ":NPWP"/C.2
capture and the "Bukti Pemotongan ini." anchor), yet taxpayerId (c1) and
certificateNumber (h1) are empty in the returned record — the claimed
non-emptiness invariant fails. -/
theorem anchor_matched_empty_field_cex :
    (runFSM stepA initA
      (splitNl (jsSubstringFrom cexA (jsIndexOf cexA "Dokumen Referensi".data)))).state = 14 ∧
    (extractAFormatedEbupot cexA).c1 = [] ∧
    (extractAFormatedEbupot cexA).h1 = [] := by
  decide

/-- C3 (amended): for every anchor state of Extractors A, B and C, when
the anchor matches, the state's action assigns the designated field the
captured value, and the field is non-empty whenever that captured value
is non-empty (date fields built by `ddmmyyyyToIso` and the permutation
date of B, the length-guarded amountRef1 of A state 13 and the 15-digit
taxpayerId of C state 9 are non-empty outright); an empty captured line
or buffer yields an empty field. -/
theorem anchor_capture_assign :
    (∀ (st : AState) (l : List Char), st.state = 3 → l ≠ [] →
      ∃ doc date, (stepA st l).1.ret.b7 = st.ret.b7 ++ [doc, date] ∧ date ≠ []) ∧
    (∀ (st : AState) (l : List Char), st.state = 5 → l = "B.9".data → st.buffer ≠ [] →
      ∃ doc date, (stepA st l).1.ret.b8 = st.ret.b8 ++ [doc, date] ∧ date ≠ []) ∧
    (∀ (st : AState) (l : List Char), st.state = 8 → l = "Nama Wajib PajakC.2:".data →
      (stepA st l).1.ret.c1 = st.buffer ∧ (st.buffer ≠ [] → (stepA st l).1.ret.c1 ≠ [])) ∧
    (∀ (st : AState) (l : List Char), st.state = 10 → l = "C.4".data →
      (stepA st l).1.ret.c3 = ddmmyyyyToIso st.buffer ∧ (stepA st l).1.ret.c3 ≠ []) ∧
    (∀ (st : AState) (l : List Char), st.state = 12 →
      (stepA st l).1.ret.h1 = l ∧ (l ≠ [] → (stepA st l).1.ret.h1 ≠ [])) ∧
    (∀ (st : AState) (l : List Char), st.state = 13 → 4 < l.length →
      (stepA st l).1.ret.b1 = l ∧ (stepA st l).1.ret.b1 ≠ []) ∧
    (∀ (st : AState) (l : List Char), st.state = 14 →
      (stepA st l).1.ret.b2 = l ∧ (l ≠ [] → (stepA st l).1.ret.b2 ≠ [])) ∧
    (∀ (st : BState) (l : List Char), st.state = 2 →
      (stepB st l).1.ret.h1 = l ∧ (l ≠ [] → (stepB st l).1.ret.h1 ≠ [])) ∧
    (∀ (st : BState) (l : List Char), st.state = 4 →
      (6 ≤ l.length → (stepB st l).1.ret.b1 ≠ []) ∧
      (containsSub l ['-'] = true → (stepB st l).1.ret.b2 ≠ [])) ∧
    (∀ (st : BState) (l : List Char), st.state = 6 → l ≠ "B.8".data →
      (stepB st l).1.ret.b7 = st.ret.b7 ++ [l]) ∧
    (∀ (st : BState) (l : List Char), st.state = 7 →
      ∃ doc date, (stepB st l).1.ret.b7 = st.ret.b7 ++ [doc, date] ∧ date ≠ []) ∧
    (∀ (st : BState) (l : List Char), st.state = 10 → l ≠ [] →
      (stepB st l).1.ret.c1 ≠ []) ∧
    (∀ (st : BState) (l : List Char), st.state = 12 → (stepB st l).1.ret.c3 ≠ []) ∧
    (∀ (st : CState) (l : List Char), st.state = 1 →
      (stepC st l).1.ret.h1 = stripWs l ∧ (stripWs l ≠ [] → (stepC st l).1.ret.h1 ≠ [])) ∧
    (∀ (st : CState) (l : List Char), st.state = 6 →
      (l ≠ [] → (stepC st l).1.ret.b1 ≠ []) ∧
      ((jsIndexOf l ['-']).toNat + 5 < l.length → (stepC st l).1.ret.b2 ≠ [])) ∧
    (∀ (st : CState) (l : List Char), st.state = 9 →
      ((!(stripWs l).isEmpty && (stripWs l).all Char.isDigit)
          && (stripWs l).length == 15) = true →
      (stepC st l).1.ret.c1 = stripWs l ∧ (stepC st l).1.ret.c1 ≠ []) ∧
    (∀ (st : CState) (l : List Char), st.state = 10 →
      (stepC st l).1.ret.c1 = stripWs l ∧ (stripWs l ≠ [] → (stepC st l).1.ret.c1 ≠ [])) ∧
    (∀ (st : CState) (l : List Char), st.state = 11 →
      (st.b7flag = true → ∃ d doc date,
        (stepC st l).1.ret.b7 = st.ret.b7 ++ [d, doc, date] ∧ date ≠ []) ∧
      (st.b7flag = false → ∃ doc date,
        (stepC st l).1.ret.b8 = st.ret.b8 ++ [doc, date] ∧ date ≠ [])) ∧
    (∀ (st : CState) (l : List Char), st.state = 12 → (stepC st l).1.ret.c3 ≠ []) := by
  refine ⟨?_, ?_, ?_, ?_, ?_, ?_, ?_, ?_, ?_, ?_, ?_, ?_, ?_, ?_, ?_, ?_, ?_, ?_, ?_⟩
  · intro st l hst hne
    obtain ⟨ret, buffer, state⟩ := st
    dsimp only at hst ⊢
    subst hst
    refine ⟨jsSlice l 0 (-8), ddmmyyyyToIso (jsSliceFrom l (-8)), ?_, ddmmyyyyToIso_ne_nil _⟩
    simp [stepA, hne]
  · intro st l hst hl hbuf
    obtain ⟨ret, buffer, state⟩ := st
    dsimp only at hst hbuf ⊢
    subst hst
    subst hl
    refine ⟨jsSlice buffer 0 (-8), ddmmyyyyToIso (jsSliceFrom buffer (-8)), ?_,
      ddmmyyyyToIso_ne_nil _⟩
    simp [stepA, hbuf]
  · intro st l hst hl
    obtain ⟨ret, buffer, state⟩ := st
    dsimp only at hst ⊢
    subst hst
    subst hl
    exact ⟨by simp [stepA], fun hbuf => by simpa [stepA] using hbuf⟩
  · intro st l hst hl
    obtain ⟨ret, buffer, state⟩ := st
    dsimp only at hst ⊢
    subst hst
    subst hl
    exact ⟨by simp [stepA], by simpa [stepA] using ddmmyyyyToIso_ne_nil buffer⟩
  · intro st l hst
    obtain ⟨ret, buffer, state⟩ := st
    dsimp only at hst ⊢
    subst hst
    exact ⟨by simp [stepA], fun hne => by simpa [stepA] using hne⟩
  · intro st l hst hlen
    obtain ⟨ret, buffer, state⟩ := st
    dsimp only at hst ⊢
    subst hst
    have hne : l ≠ [] := by
      intro hc
      rw [hc] at hlen
      simp at hlen
    exact ⟨by simp [stepA, hlen], by simpa [stepA, hlen] using hne⟩
  · intro st l hst
    obtain ⟨ret, buffer, state⟩ := st
    dsimp only at hst ⊢
    subst hst
    exact ⟨by simp [stepA], fun hne => by simpa [stepA] using hne⟩
  · intro st l hst
    obtain ⟨ret, state⟩ := st
    dsimp only at hst ⊢
    subst hst
    exact ⟨by simp [stepB], fun hne => by simpa [stepB] using hne⟩
  · intro st l hst
    obtain ⟨ret, state⟩ := st
    dsimp only at hst ⊢
    subst hst
    constructor
    · intro hlen
      simp [stepB]
      split_ifs
      · unfold jsSliceFrom
        apply jsSlice_ne_nil_of_lt
        unfold sliceIdx
        simp only [Nat.min_def, min_def]
        split_ifs <;> omega
      · unfold jsSliceFrom
        apply jsSlice_ne_nil_of_lt
        unfold sliceIdx
        simp only [Nat.min_def, min_def]
        split_ifs <;> omega
    · intro hc
      cases hio : indexOfAux ['-'] l with
      | none => exact absurd ((indexOfAux_eq_none_iff _ _).mp hio) (by simp [hc])
      | some n =>
        have hn : n < l.length := indexOfAux_some_lt ['-'] (by decide) l n hio
        have hji : jsIndexOf l ['-'] = (n : Int) := by
          unfold jsIndexOf
          rw [hio]
        simp [stepB, hji]
        apply jsSubstring_ne_nil_of_lt
        unfold clampIdx
        omega
  · intro st l hst hl
    obtain ⟨ret, state⟩ := st
    dsimp only at hst ⊢
    subst hst
    simp [stepB, hl]
  · intro st l hst
    obtain ⟨ret, state⟩ := st
    dsimp only at hst ⊢
    subst hst
    refine ⟨jsSlice l 0 (-8),
      optStr ((jsSliceFrom l (-8)).get? 1) ++ optStr ((jsSliceFrom l (-8)).get? 2) ++
      optStr ((jsSliceFrom l (-8)).get? 7) ++ optStr ((jsSliceFrom l (-8)).get? 5) ++ ['-'] ++
      optStr ((jsSliceFrom l (-8)).get? 3) ++ optStr ((jsSliceFrom l (-8)).get? 4) ++ ['-'] ++
      optStr ((jsSliceFrom l (-8)).get? 0) ++ optStr ((jsSliceFrom l (-8)).get? 6), ?_, ?_⟩
    · simp [stepB]
    · simp
  · intro st l hst hne
    obtain ⟨ret, state⟩ := st
    dsimp only at hst ⊢
    subst hst
    cases l with
    | nil => exact absurd rfl hne
    | cons c rest => simp [stepB, npwpPerm, optStr]
  · intro st l hst
    obtain ⟨ret, state⟩ := st
    dsimp only at hst ⊢
    subst hst
    simp [stepB]
  · intro st l hst
    obtain ⟨ret, bufferLines, b7flag, state⟩ := st
    dsimp only at hst ⊢
    subst hst
    exact ⟨by simp [stepC], fun hne => by simpa [stepC] using hne⟩
  · intro st l hst
    obtain ⟨ret, bufferLines, b7flag, state⟩ := st
    dsimp only at hst ⊢
    subst hst
    have hp := jsIndexOf_ge_neg_one l ['-']
    constructor
    · intro hne
      have hlen : 0 < l.length := List.length_pos.mpr hne
      simp [stepC]
      apply jsSubstring_ne_nil_of_lt
      unfold clampIdx
      omega
    · intro hlt
      simp [stepC]
      apply jsSubstring_ne_nil_of_lt
      unfold clampIdx
      omega
  · intro st l hst hg
    obtain ⟨ret, bufferLines, b7flag, state⟩ := st
    dsimp only at hst ⊢
    subst hst
    have hc1 : (stepC ⟨ret, bufferLines, b7flag, 9⟩ l).1.ret.c1 = stripWs l := by
      simp [stepC, hg]
    refine ⟨hc1, ?_⟩
    have hlen : (stripWs l).length = 15 := by
      simp only [Bool.and_eq_true, beq_iff_eq] at hg
      exact hg.2
    rw [hc1]
    intro hnil
    rw [hnil] at hlen
    simp at hlen
  · intro st l hst
    obtain ⟨ret, bufferLines, b7flag, state⟩ := st
    dsimp only at hst ⊢
    subst hst
    exact ⟨by simp [stepC], fun hne => by simpa [stepC] using hne⟩
  · intro st l hst
    obtain ⟨ret, bufferLines, b7flag, state⟩ := st
    dsimp only at hst ⊢
    subst hst
    constructor
    · intro hf
      subst hf
      refine ⟨bufferLines.getD 0 [], (splitDocDate (bufferLines.getD 1 [])).1,
        (splitDocDate (bufferLines.getD 1 [])).2, ?_, splitDocDate_snd_ne_nil _⟩
      simp [stepC]
    · intro hf
      subst hf
      refine ⟨(splitDocDate (bufferLines.getD 0 [])).1,
        (splitDocDate (bufferLines.getD 0 [])).2, ?_, splitDocDate_snd_ne_nil _⟩
      simp [stepC]
  · intro st l hst
    obtain ⟨ret, bufferLines, b7flag, state⟩ := st
    dsimp only at hst ⊢
    subst hst
    simpa [stepC] using ddmmyyyyToIso_ne_nil (stripWs l)

theorem anchor_capture_assign_wit :
    (∃ doc date, (stepA ⟨emptyData, [], 3⟩ "X05082023".data).1.ret.b7
      = (⟨emptyData, [], 3⟩ : AState).ret.b7 ++ [doc, date] ∧ date ≠ []) ∧
    (∃ doc date, (stepA ⟨emptyData, "DOC05082023".data, 5⟩ "B.9".data).1.ret.b8
      = (⟨emptyData, "DOC05082023".data, 5⟩ : AState).ret.b8 ++ [doc, date] ∧ date ≠ []) ∧
    ((stepA ⟨emptyData, "123".data, 8⟩ "Nama Wajib PajakC.2:".data).1.ret.c1
      = (⟨emptyData, "123".data, 8⟩ : AState).buffer ∧
     (stepA ⟨emptyData, "123".data, 8⟩ "Nama Wajib PajakC.2:".data).1.ret.c1 ≠ []) ∧
    ((stepA ⟨emptyData, "05082023".data, 10⟩ "C.4".data).1.ret.c3
      = ddmmyyyyToIso (⟨emptyData, "05082023".data, 10⟩ : AState).buffer ∧
     (stepA ⟨emptyData, "05082023".data, 10⟩ "C.4".data).1.ret.c3 ≠ []) ∧
    ((stepA ⟨emptyData, [], 12⟩ "CERT-99".data).1.ret.h1 = "CERT-99".data ∧
     (stepA ⟨emptyData, [], 12⟩ "CERT-99".data).1.ret.h1 ≠ []) ∧
    ((stepA ⟨emptyData, [], 13⟩ "abcdef".data).1.ret.b1 = "abcdef".data ∧
     (stepA ⟨emptyData, [], 13⟩ "abcdef".data).1.ret.b1 ≠ []) ∧
    ((stepA ⟨emptyData, [], 14⟩ "X".data).1.ret.b2 = "X".data ∧
     (stepA ⟨emptyData, [], 14⟩ "X".data).1.ret.b2 ≠ []) ∧
    ((stepB ⟨emptyData, 2⟩ "CERTB".data).1.ret.h1 = "CERTB".data ∧
     (stepB ⟨emptyData, 2⟩ "CERTB".data).1.ret.h1 ≠ []) ∧
    ((stepB ⟨emptyData, 4⟩ "AB-CDEFGH".data).1.ret.b1 ≠ [] ∧
     (stepB ⟨emptyData, 4⟩ "AB-CDEFGH".data).1.ret.b2 ≠ []) ∧
    ((stepB ⟨emptyData, 6⟩ "B.9".data).1.ret.b7
      = (⟨emptyData, 6⟩ : BState).ret.b7 ++ ["B.9".data]) ∧
    (∃ doc date, (stepB ⟨emptyData, 7⟩ "DOC12345678".data).1.ret.b7
      = (⟨emptyData, 7⟩ : BState).ret.b7 ++ [doc, date] ∧ date ≠ []) ∧
    (stepB ⟨emptyData, 10⟩ "ABCDEFGHIJKLMNO".data).1.ret.c1 ≠ [] ∧
    (stepB ⟨emptyData, 12⟩ "12345678".data).1.ret.c3 ≠ [] ∧
    ((stepC ⟨emptyData, [], false, 1⟩ " CERT C ".data).1.ret.h1
      = stripWs " CERT C ".data ∧
     (stepC ⟨emptyData, [], false, 1⟩ " CERT C ".data).1.ret.h1 ≠ []) ∧
    ((stepC ⟨emptyData, [], false, 6⟩ "AB-CDEFGHIJKLMN".data).1.ret.b1 ≠ [] ∧
     (stepC ⟨emptyData, [], false, 6⟩ "AB-CDEFGHIJKLMN".data).1.ret.b2 ≠ []) ∧
    ((stepC ⟨emptyData, [], false, 9⟩ "123456789012345".data).1.ret.c1
      = stripWs "123456789012345".data ∧
     (stepC ⟨emptyData, [], false, 9⟩ "123456789012345".data).1.ret.c1 ≠ []) ∧
    ((stepC ⟨emptyData, [], false, 10⟩ " 123 ".data).1.ret.c1 = stripWs " 123 ".data ∧
     (stepC ⟨emptyData, [], false, 10⟩ " 123 ".data).1.ret.c1 ≠ []) ∧
    (∃ d doc date,
      (stepC ⟨emptyData, ["L1".data, "DOC 05082023".data], true, 11⟩ "x".data).1.ret.b7
        = (⟨emptyData, ["L1".data, "DOC 05082023".data], true, 11⟩ : CState).ret.b7
            ++ [d, doc, date] ∧ date ≠ []) ∧
    (∃ doc date,
      (stepC ⟨emptyData, ["DOC 05082023".data], false, 11⟩ "x".data).1.ret.b8
        = (⟨emptyData, ["DOC 05082023".data], false, 11⟩ : CState).ret.b8
            ++ [doc, date] ∧ date ≠ []) ∧
    (stepC ⟨emptyData, [], false, 12⟩ "05082023".data).1.ret.c3 ≠ [] :=
  ⟨anchor_capture_assign.1 ⟨emptyData, [], 3⟩ "X05082023".data rfl (by decide),
   anchor_capture_assign.2.1 ⟨emptyData, "DOC05082023".data, 5⟩ "B.9".data rfl rfl
     (by decide),
   ⟨(anchor_capture_assign.2.2.1 ⟨emptyData, "123".data, 8⟩
       "Nama Wajib PajakC.2:".data rfl rfl).1,
    (anchor_capture_assign.2.2.1 ⟨emptyData, "123".data, 8⟩
       "Nama Wajib PajakC.2:".data rfl rfl).2 (by decide)⟩,
   anchor_capture_assign.2.2.2.1 ⟨emptyData, "05082023".data, 10⟩ "C.4".data rfl rfl,
   ⟨(anchor_capture_assign.2.2.2.2.1 ⟨emptyData, [], 12⟩ "CERT-99".data rfl).1,
    (anchor_capture_assign.2.2.2.2.1 ⟨emptyData, [], 12⟩ "CERT-99".data rfl).2
      (by decide)⟩,
   anchor_capture_assign.2.2.2.2.2.1 ⟨emptyData, [], 13⟩ "abcdef".data rfl (by decide),
   ⟨(anchor_capture_assign.2.2.2.2.2.2.1 ⟨emptyData, [], 14⟩ "X".data rfl).1,
    (anchor_capture_assign.2.2.2.2.2.2.1 ⟨emptyData, [], 14⟩ "X".data rfl).2 (by decide)⟩,
   ⟨(anchor_capture_assign.2.2.2.2.2.2.2.1 ⟨emptyData, 2⟩ "CERTB".data rfl).1,
    (anchor_capture_assign.2.2.2.2.2.2.2.1 ⟨emptyData, 2⟩ "CERTB".data rfl).2
      (by decide)⟩,
   ⟨(anchor_capture_assign.2.2.2.2.2.2.2.2.1 ⟨emptyData, 4⟩ "AB-CDEFGH".data rfl).1
      (by decide),
    (anchor_capture_assign.2.2.2.2.2.2.2.2.1 ⟨emptyData, 4⟩ "AB-CDEFGH".data rfl).2
      (by decide)⟩,
   anchor_capture_assign.2.2.2.2.2.2.2.2.2.1 ⟨emptyData, 6⟩ "B.9".data rfl (by decide),
   anchor_capture_assign.2.2.2.2.2.2.2.2.2.2.1 ⟨emptyData, 7⟩ "DOC12345678".data rfl,
   anchor_capture_assign.2.2.2.2.2.2.2.2.2.2.2.1 ⟨emptyData, 10⟩
     "ABCDEFGHIJKLMNO".data rfl (by decide),
   anchor_capture_assign.2.2.2.2.2.2.2.2.2.2.2.2.1 ⟨emptyData, 12⟩ "12345678".data rfl,
   ⟨(anchor_capture_assign.2.2.2.2.2.2.2.2.2.2.2.2.2.1 ⟨emptyData, [], false, 1⟩
       " CERT C ".data rfl).1,
    (anchor_capture_assign.2.2.2.2.2.2.2.2.2.2.2.2.2.1 ⟨emptyData, [], false, 1⟩
       " CERT C ".data rfl).2 (by decide)⟩,
   ⟨(anchor_capture_assign.2.2.2.2.2.2.2.2.2.2.2.2.2.2.1 ⟨emptyData, [], false, 6⟩
       "AB-CDEFGHIJKLMN".data rfl).1 (by decide),
    (anchor_capture_assign.2.2.2.2.2.2.2.2.2.2.2.2.2.2.1 ⟨emptyData, [], false, 6⟩
       "AB-CDEFGHIJKLMN".data rfl).2 (by decide)⟩,
   anchor_capture_assign.2.2.2.2.2.2.2.2.2.2.2.2.2.2.2.1 ⟨emptyData, [], false, 9⟩
     "123456789012345".data rfl (by decide),
   ⟨(anchor_capture_assign.2.2.2.2.2.2.2.2.2.2.2.2.2.2.2.2.1 ⟨emptyData, [], false, 10⟩
       " 123 ".data rfl).1,
    (anchor_capture_assign.2.2.2.2.2.2.2.2.2.2.2.2.2.2.2.2.1 ⟨emptyData, [], false, 10⟩
       " 123 ".data rfl).2 (by decide)⟩,
   (anchor_capture_assign.2.2.2.2.2.2.2.2.2.2.2.2.2.2.2.2.2.1
     ⟨emptyData, ["L1".data, "DOC 05082023".data], true, 11⟩ "x".data rfl).1 rfl,
   (anchor_capture_assign.2.2.2.2.2.2.2.2.2.2.2.2.2.2.2.2.2.1
     ⟨emptyData, ["DOC 05082023".data], false, 11⟩ "x".data rfl).2 rfl,
   anchor_capture_assign.2.2.2.2.2.2.2.2.2.2.2.2.2.2.2.2.2.2
     ⟨emptyData, [], false, 12⟩ "05082023".data rfl⟩

end Ebupot
